import Mathlib

/-!
Verification of the upload-completer reconciliation engine of the
`thg-adamdean/teleport` repository against its natural-language
specification.

The repository excerpt contains the completer's test suite
(`lib/events/complete_test.go`) and the teleterm database client
(`lib/teleterm/clusters/cluster_databases.go`).  The upload completer
implementation itself (`checkUploads`, `NewUploadCompleter`, the
memory uploader and the session-end composer) is exercised by the test
file but is not part of the excerpt, so those operations are modelled
from the specification; definitions taken from code present in the
excerpt say so in their doc comment.

Machine times and durations are modelled as natural numbers
(nanosecond-like ticks); session identifiers are strings, as in the
source.
-/

namespace Teleport

/-- Modelled from the spec (Data Model, Upload/Part): an upload held by the
in-memory upload store: unique identifier, owning session identifier,
creation timestamp, the part numbers uploaded so far, and the completion
flag (`mu.uploads[upload.ID].completed` in the test file). -/
structure MemoryUpload where
  id : String
  sessionID : String
  initiated : Nat
  partNumbers : List Nat
  completed : Bool
deriving DecidableEq

/-- Modelled from the spec (Data Model, Session Tracker): session
identifier and expiry timestamp.  The kind plays no role in liveness
decisions and is omitted. -/
structure SessionTracker where
  sessionID : String
  expiry : Nat
deriving DecidableEq

/-- Embedded from `mockSessionTrackerService.GetActiveSessionTrackers` in
`lib/events/complete_test.go`: keep exactly the trackers whose expiry is
strictly after `now` (`tracker.Expiry().After(m.clock.Now())`). -/
def getActiveSessionTrackers (trackers : List SessionTracker) (now : Nat) :
    List SessionTracker :=
  trackers.filter (fun t => now < t.expiry)

/-- Modelled from the spec (step 3 of the per-tick algorithm): the lookup
of active tracker session identifiers built from the snapshot. -/
def activeSessionIDs (trackers : List SessionTracker) : List String :=
  trackers.map (fun t => t.sessionID)

/-- Error classes a session-tracker source call can fail with:
`notFound`, `accessDenied` (the rolling-upgrade quirk), or any other
unexpected error. -/
inductive TrackerError
  | notFound
  | accessDenied
  | other
deriving DecidableEq

/-- Tick-level errors surfaced by `checkUploads`: the upload listing
failed, or the tracker snapshot failed with an unexpected error. -/
inductive TickError
  | listFailed
  | trackerFailed
deriving DecidableEq

/-- What the collaborators return during one tick: the clock reading,
whether `ListUploads` fails, and the response of
`GetActiveSessionTrackers`. -/
structure TickInput where
  now : Nat
  listUploadsFails : Bool
  trackerResp : Except TrackerError (List SessionTracker)

/-- Modelled from the spec (Error Handling Design): `NotFound` and
`AccessDenied` from the snapshot fetch are folded into "presumed
inactive", i.e. an empty active set; any other error is fatal to the
tick. -/
def resolveTrackers : Except TrackerError (List SessionTracker) →
    Option (List SessionTracker)
  | .ok trackers => some trackers
  | .error .notFound => some []
  | .error .accessDenied => some []
  | .error .other => none

/-- Modelled from the spec (Upload Completer Configuration): the three
required collaborator handles and the grace period.  The clock and check
interval are supplied per tick respectively irrelevant to the per-tick
algorithm and are omitted. -/
structure UploadCompleterConfig where
  hasUploader : Bool
  hasAuditLog : Bool
  hasSessionTracker : Bool
  gracePeriod : Nat
deriving DecidableEq

/-- Construction-time configuration errors of the upload completer. -/
inductive ConfigError
  | missingUploader
  | missingAuditLog
  | missingSessionTracker
deriving DecidableEq

/-- Modelled from the spec (External Interfaces): construction validates
eagerly; a missing upload store, audit log or tracker source is a
construction-time error, otherwise the completer is returned. -/
def NewUploadCompleter (cfg : UploadCompleterConfig) :
    Except ConfigError UploadCompleterConfig :=
  if cfg.hasUploader = false then .error .missingUploader
  else if cfg.hasAuditLog = false then .error .missingAuditLog
  else if cfg.hasSessionTracker = false then .error .missingSessionTracker
  else .ok cfg

/-- State the completer's tick acts on: the upload store contents plus
the sessions for which asynchronous emission has been scheduled. -/
structure CompleterState where
  uploads : List MemoryUpload
  pending : List String
deriving DecidableEq

/-- Modelled from the spec (step 4 of the per-tick algorithm): one
upload's treatment during a tick.  Completed uploads are not listed and
stay untouched; an upload whose session has an active tracker is
skipped; otherwise the session is presumed inactive and the upload is
finalized when the grace period is zero or the elapsed time since
creation reaches it.  On successful completion, asynchronous emission is
scheduled for the session, but only when at least one part was uploaded.
Returns the updated upload and the optionally scheduled session. -/
def tickUpload (grace now : Nat) (activeIDs : List String)
    (mu : MemoryUpload) : MemoryUpload × Option String :=
  if mu.completed then (mu, none)
  else if mu.sessionID ∈ activeIDs then (mu, none)
  else if grace = 0 ∨ grace ≤ now - mu.initiated then
    ({ mu with completed := true },
      if mu.partNumbers = [] then none else some mu.sessionID)
  else (mu, none)

/-- Modelled from the spec: fold `tickUpload` over the listed uploads,
collecting the updated store contents and the scheduled emissions. -/
def processUploads (grace now : Nat) (activeIDs : List String) :
    List MemoryUpload → List MemoryUpload × List String
  | [] => ([], [])
  | mu :: rest =>
    let r := tickUpload grace now activeIDs mu
    let rs := processUploads grace now activeIDs rest
    (r.1 :: rs.1, r.2.toList ++ rs.2)

/-- Modelled from the spec (per-tick algorithm `checkUploads`): list the
uploads (on failure abort the tick, nothing mutated); fetch the tracker
snapshot once (unexpected failure aborts the tick, `NotFound` and
`AccessDenied` resolve to an empty active set); then reconcile every
upload against the active-tracker lookup.  Returns the new state and the
tick-level error, if any. -/
def checkUploads (cfg : UploadCompleterConfig) (inp : TickInput)
    (st : CompleterState) : CompleterState × Option TickError :=
  if inp.listUploadsFails then (st, some .listFailed)
  else
    match resolveTrackers inp.trackerResp with
    | none => (st, some .trackerFailed)
    | some trackers =>
      let r := processUploads cfg.gracePeriod inp.now
        (activeSessionIDs trackers) st.uploads
      ({ uploads := r.1, pending := st.pending ++ r.2 }, none)

/-- Audit event kinds relevant to the completer: the two start kinds the
composer recognises, their matching end kinds, and the upload summary. -/
inductive EventKind
  | sessionStart
  | sessionEnd
  | windowsDesktopSessionStart
  | windowsDesktopSessionEnd
  | sessionUpload
deriving DecidableEq

/-- An audit event: its kind and timestamp.  Each session's log is a
list of these in temporal order. -/
structure AuditEvent where
  kind : EventKind
  time : Nat
deriving DecidableEq

/-- Whether an event kind is a start-class kind the composer scans for. -/
def isStartKind : EventKind → Bool
  | .sessionStart => true
  | .windowsDesktopSessionStart => true
  | _ => false

/-- The end kind matching a start kind: a desktop start yields the
desktop end variant, a generic session start the generic end. -/
def matchingEndKind : EventKind → Option EventKind
  | .sessionStart => some .sessionEnd
  | .windowsDesktopSessionStart => some .windowsDesktopSessionEnd
  | _ => none

/-- The kind of the first start-class event of a session's log, if any. -/
def findStartKind (evs : List AuditEvent) : Option EventKind :=
  (evs.find? (fun e => isStartKind e.kind)).map (fun e => e.kind)

/-- Modelled from the spec (Session-End Composer): pure function of the
session's event sequence; if a start-class event exists and the matching
end-class event does not, produce one synthetic end event of the
matching kind stamped `now`, otherwise produce nothing. -/
def composeEndEvent (evs : List AuditEvent) (now : Nat) :
    Option AuditEvent :=
  match findStartKind evs with
  | none => none
  | some sk =>
    match matchingEndKind sk with
    | none => none
    | some ek =>
      if evs.any (fun e => e.kind == ek) then none
      else some ⟨ek, now⟩

/-- Modelled from the spec (asynchronous emission): the events one
emission for a session appends to the visible log, summary first, then
the composed end event when the composer produced one. -/
def newEmittedEvents (evs : List AuditEvent) (now : Nat) :
    List AuditEvent :=
  ⟨.sessionUpload, now⟩ :: (composeEndEvent evs now).toList

/-- Modelled from the spec: running one scheduled emission appends the
emitted events to the session's log. -/
def runEmission (evs : List AuditEvent) (now : Nat) : List AuditEvent :=
  evs ++ newEmittedEvents evs now

/-- Embedded from `Cluster.ReissueDBCerts` in
`lib/teleterm/clusters/cluster_databases.go`: the database's name and
protocol, the only fields the function reads. -/
structure DatabaseSpec where
  name : String
  protocol : String
deriving DecidableEq

/-- Embedded from `lib/defaults`: the MongoDB protocol constant compared
against in `ReissueDBCerts`. -/
def ProtocolMongoDB : String := "mongodb"

/-- The side-effecting steps `ReissueDBCerts` performs, in source order:
refresh the user certificates, fetch the database certificates, update
the database connection profile. -/
inductive DBStep
  | refreshUserCerts
  | fetchDBCerts
  | updateProfile
deriving DecidableEq

/-- Outcomes of the collaborator calls made by `ReissueDBCerts` during
one invocation. -/
structure ReissueEnv where
  refreshErr : Bool
  fetchErr : Bool
  profileErr : Bool
deriving DecidableEq

/-- Errors `ReissueDBCerts` can return. -/
inductive ReissueError
  | badParameter
  | refreshFailed
  | fetchFailed
  | profileFailed
deriving DecidableEq

/-- Embedded from `Cluster.ReissueDBCerts` in
`lib/teleterm/clusters/cluster_databases.go`: for a MongoDB database an
empty user name is a `BadParameter` error returned before anything else
runs; otherwise the three steps run in order, each aborting on its
error.  Returns the steps attempted and the error, if any. -/
def ReissueDBCerts (user dbName : String) (db : DatabaseSpec)
    (env : ReissueEnv) : List DBStep × Option ReissueError :=
  if db.protocol == ProtocolMongoDB && user == "" then
    ([], some .badParameter)
  else if env.refreshErr then
    ([.refreshUserCerts], some .refreshFailed)
  else if env.fetchErr then
    ([.refreshUserCerts, .fetchDBCerts], some .fetchFailed)
  else if env.profileErr then
    ([.refreshUserCerts, .fetchDBCerts, .updateProfile],
      some .profileFailed)
  else
    ([.refreshUserCerts, .fetchDBCerts, .updateProfile], none)

/-! ### Helper lemmas about one upload's treatment during a tick -/

theorem tickUpload_of_completed (grace now : Nat) (a : List String)
    (mu : MemoryUpload) (h : mu.completed = true) :
    tickUpload grace now a mu = (mu, none) := by
  simp [tickUpload, h]

theorem tickUpload_of_active (grace now : Nat) (a : List String)
    (mu : MemoryUpload) (h1 : mu.completed = false)
    (h2 : mu.sessionID ∈ a) :
    tickUpload grace now a mu = (mu, none) := by
  simp [tickUpload, h1, h2]

theorem tickUpload_of_pending (grace now : Nat) (a : List String)
    (mu : MemoryUpload) (h1 : mu.completed = false)
    (h2 : mu.sessionID ∉ a) (h3 : now - mu.initiated < grace) :
    tickUpload grace now a mu = (mu, none) := by
  have hc : ¬ (grace = 0 ∨ grace ≤ now - mu.initiated) := by omega
  simp [tickUpload, h1, h2, hc]

theorem tickUpload_of_finalize (grace now : Nat) (a : List String)
    (mu : MemoryUpload) (h1 : mu.completed = false)
    (h2 : mu.sessionID ∉ a)
    (h3 : grace = 0 ∨ grace ≤ now - mu.initiated) :
    tickUpload grace now a mu =
      ({ mu with completed := true },
        if mu.partNumbers = [] then none else some mu.sessionID) := by
  simp [tickUpload, h1, h2, h3]

theorem tickUpload_snd_some (grace now : Nat) (a : List String)
    (mu : MemoryUpload) (s : String)
    (h : (tickUpload grace now a mu).2 = some s) :
    mu.sessionID = s ∧ mu.partNumbers ≠ [] := by
  unfold tickUpload at h
  by_cases hc : mu.completed = true
  · simp [hc] at h
  · simp only [hc, Bool.false_eq_true, if_false,
      eq_false_of_ne_true hc] at h
    by_cases hm : mu.sessionID ∈ a
    · simp [hm] at h
    · simp only [hm, if_false, if_neg] at h
      by_cases hg : grace = 0 ∨ grace ≤ now - mu.initiated
      · simp only [hg, if_true, if_pos] at h
        by_cases hp : mu.partNumbers = []
        · simp [hp] at h
        · simp only [hp, if_false, if_neg] at h
          exact ⟨Option.some.inj h, hp⟩
      · simp [hg] at h

/-! ### Helper lemmas about the per-tick fold and `checkUploads` -/

theorem processUploads_fst (grace now : Nat) (a : List String)
    (l : List MemoryUpload) :
    (processUploads grace now a l).1 =
      l.map (fun mu => (tickUpload grace now a mu).1) := by
  induction l with
  | nil => rfl
  | cons mu rest ih => simp [processUploads, ih]

theorem mem_processUploads_snd (grace now : Nat) (a : List String)
    (l : List MemoryUpload) (s : String) :
    s ∈ (processUploads grace now a l).2 ↔
      ∃ mu ∈ l, (tickUpload grace now a mu).2 = some s := by
  induction l with
  | nil => simp [processUploads]
  | cons mu rest ih =>
    simp only [processUploads, List.mem_append, ih, Option.mem_toList,
      Option.mem_def, List.mem_cons]
    constructor
    · rintro (h | ⟨mu2, hmem, heq⟩)
      · exact ⟨mu, Or.inl rfl, h⟩
      · exact ⟨mu2, Or.inr hmem, heq⟩
    · rintro ⟨mu2, hmem, heq⟩
      rcases hmem with rfl | hmem
      · exact Or.inl heq
      · exact Or.inr ⟨mu2, hmem, heq⟩

theorem checkUploads_ok (cfg : UploadCompleterConfig) (inp : TickInput)
    (st : CompleterState) (trackers : List SessionTracker)
    (h1 : inp.listUploadsFails = false)
    (h2 : resolveTrackers inp.trackerResp = some trackers) :
    checkUploads cfg inp st =
      ({ uploads := st.uploads.map
          (fun mu => (tickUpload cfg.gracePeriod inp.now
            (activeSessionIDs trackers) mu).1),
         pending := st.pending ++ (processUploads cfg.gracePeriod inp.now
          (activeSessionIDs trackers) st.uploads).2 }, none) := by
  simp [checkUploads, h1, h2, processUploads_fst]

theorem checkUploads_uploads_getElem (cfg : UploadCompleterConfig)
    (inp : TickInput) (st : CompleterState)
    (trackers : List SessionTracker) (i : Nat)
    (h1 : inp.listUploadsFails = false)
    (h2 : resolveTrackers inp.trackerResp = some trackers) :
    ((checkUploads cfg inp st).1.uploads)[i]? =
      (st.uploads[i]?).map
        (fun mu => (tickUpload cfg.gracePeriod inp.now
          (activeSessionIDs trackers) mu).1) := by
  rw [checkUploads_ok cfg inp st trackers h1 h2]
  simp

theorem mem_activeSessionIDs (trackers : List SessionTracker)
    (s : String) :
    s ∈ activeSessionIDs trackers ↔
      ∃ tr ∈ trackers, tr.sessionID = s := by
  simp [activeSessionIDs]

/-! ### Claim theorems -/

/-- C1: for an upload whose session has no resolvable tracker (the
snapshot either succeeded without an active tracker for the session, or
failed with not-found or permission-denied, both of which resolve to an
empty active set) and configured grace period `G`, `checkUploads` leaves
the upload unchanged (hence incomplete) on every tick where elapsed time
since creation is below `G`, and completes it on any tick where elapsed
time is at least `G`. -/
theorem checkUploads_gracePeriod_semantics (cfg : UploadCompleterConfig)
    (inp : TickInput) (st : CompleterState)
    (trackers : List SessionTracker) (i : Nat) (mu : MemoryUpload)
    (h1 : inp.listUploadsFails = false)
    (h2 : resolveTrackers inp.trackerResp = some trackers)
    (hmu : st.uploads[i]? = some mu)
    (hinc : mu.completed = false)
    (hna : mu.sessionID ∉ activeSessionIDs trackers) :
    (inp.now - mu.initiated < cfg.gracePeriod →
      (checkUploads cfg inp st).1.uploads[i]? = some mu)
    ∧ (cfg.gracePeriod ≤ inp.now - mu.initiated →
      (checkUploads cfg inp st).1.uploads[i]? =
        some { mu with completed := true }) := by
  constructor
  · intro hlt
    rw [checkUploads_uploads_getElem cfg inp st trackers i h1 h2, hmu]
    simp [tickUpload_of_pending _ _ _ _ hinc hna hlt]
  · intro hge
    rw [checkUploads_uploads_getElem cfg inp st trackers i h1 h2, hmu]
    simp [tickUpload_of_finalize _ _ _ _ hinc hna (Or.inr hge)]

/-- Witness for C1: grace period 2, tracker lookup failed with
not-found, elapsed time 1 — the upload is left incomplete. -/
theorem checkUploads_gracePeriod_semantics_witness :
    (checkUploads ⟨true, true, true, 2⟩
        ⟨1, false, .error .notFound⟩
        ⟨[⟨"u1", "s1", 0, [], false⟩], []⟩).1.uploads[0]? =
      some ⟨"u1", "s1", 0, [], false⟩ :=
  (checkUploads_gracePeriod_semantics ⟨true, true, true, 2⟩
      ⟨1, false, .error .notFound⟩ ⟨[⟨"u1", "s1", 0, [], false⟩], []⟩
      [] 0 ⟨"u1", "s1", 0, [], false⟩ rfl rfl rfl rfl (by decide)).1
    (by decide)

/-- C2: an upload whose session has an active tracker in the snapshot is
left unchanged (incomplete); an upload whose session has no active
tracker and whose grace period has elapsed is completed; and a call on a
state where the upload is already completed is a no-op — the completed
flag stays set and the tick returns no error. -/
theorem checkUploads_completes_abandoned (cfg : UploadCompleterConfig)
    (inp : TickInput) (st : CompleterState)
    (trackers : List SessionTracker) (i : Nat) (mu : MemoryUpload)
    (h1 : inp.listUploadsFails = false)
    (h2 : resolveTrackers inp.trackerResp = some trackers)
    (hmu : st.uploads[i]? = some mu) :
    (mu.completed = false → mu.sessionID ∈ activeSessionIDs trackers →
      (checkUploads cfg inp st).1.uploads[i]? = some mu)
    ∧ (mu.completed = false → mu.sessionID ∉ activeSessionIDs trackers →
      cfg.gracePeriod ≤ inp.now - mu.initiated →
      (checkUploads cfg inp st).1.uploads[i]? =
        some { mu with completed := true })
    ∧ (mu.completed = true →
      (checkUploads cfg inp st).1.uploads[i]? = some mu
        ∧ (checkUploads cfg inp st).2 = none) := by
  refine ⟨?_, ?_, ?_⟩
  · intro hinc hact
    rw [checkUploads_uploads_getElem cfg inp st trackers i h1 h2, hmu]
    simp [tickUpload_of_active _ _ _ _ hinc hact]
  · intro hinc hna hge
    rw [checkUploads_uploads_getElem cfg inp st trackers i h1 h2, hmu]
    simp [tickUpload_of_finalize _ _ _ _ hinc hna (Or.inr hge)]
  · intro hcom
    constructor
    · rw [checkUploads_uploads_getElem cfg inp st trackers i h1 h2, hmu]
      simp [tickUpload_of_completed _ _ _ _ hcom]
    · rw [checkUploads_ok cfg inp st trackers h1 h2]

/-- Witness for C2: a second call on a state whose upload is already
completed keeps the flag set and returns no error. -/
theorem checkUploads_completes_abandoned_witness :
    (checkUploads ⟨true, true, true, 0⟩ ⟨0, false, .ok []⟩
        ⟨[⟨"u1", "s1", 0, [], true⟩], []⟩).1.uploads[0]? =
      some ⟨"u1", "s1", 0, [], true⟩
    ∧ (checkUploads ⟨true, true, true, 0⟩ ⟨0, false, .ok []⟩
        ⟨[⟨"u1", "s1", 0, [], true⟩], []⟩).2 = none :=
  (checkUploads_completes_abandoned ⟨true, true, true, 0⟩
      ⟨0, false, .ok []⟩ ⟨[⟨"u1", "s1", 0, [], true⟩], []⟩
      [] 0 ⟨"u1", "s1", 0, [], true⟩ rfl rfl rfl).2.2 rfl

/-- C4: a tick whose tracker snapshot fails with not-found produces
exactly the same state and result as one whose snapshot fails with
access-denied — both resolve to "presume every session inactive" — and
the tick returns no error. -/
theorem checkUploads_notFound_accessDenied_alike
    (cfg : UploadCompleterConfig) (st : CompleterState) (now : Nat) :
    checkUploads cfg ⟨now, false, .error .notFound⟩ st
      = checkUploads cfg ⟨now, false, .error .accessDenied⟩ st
    ∧ (checkUploads cfg ⟨now, false, .error .notFound⟩ st).2 = none :=
  ⟨rfl, rfl⟩

/-- C6: a tick whose upload listing fails, or whose tracker snapshot
fails with an unexpected error, returns an error and leaves the whole
state (every upload's completion flag and the pending emissions)
unchanged. -/
theorem checkUploads_fatal_errors (cfg : UploadCompleterConfig)
    (inp : TickInput) (st : CompleterState) :
    (inp.listUploadsFails = true →
      checkUploads cfg inp st = (st, some .listFailed))
    ∧ (inp.listUploadsFails = false →
      resolveTrackers inp.trackerResp = none →
      checkUploads cfg inp st = (st, some .trackerFailed)) := by
  constructor
  · intro h
    simp [checkUploads, h]
  · intro h1 h2
    simp [checkUploads, h1, h2]

/-- Witness for C6: a failed listing and an unexpected snapshot failure
both leave the state untouched and surface an error. -/
theorem checkUploads_fatal_errors_witness :
    checkUploads ⟨true, true, true, 0⟩ ⟨0, true, .ok []⟩
        ⟨[⟨"u1", "s1", 0, [], false⟩], []⟩ =
      (⟨[⟨"u1", "s1", 0, [], false⟩], []⟩, some .listFailed)
    ∧ checkUploads ⟨true, true, true, 0⟩ ⟨0, false, .error .other⟩
        ⟨[⟨"u1", "s1", 0, [], false⟩], []⟩ =
      (⟨[⟨"u1", "s1", 0, [], false⟩], []⟩, some .trackerFailed) :=
  ⟨(checkUploads_fatal_errors ⟨true, true, true, 0⟩ ⟨0, true, .ok []⟩
      ⟨[⟨"u1", "s1", 0, [], false⟩], []⟩).1 rfl,
    (checkUploads_fatal_errors ⟨true, true, true, 0⟩
      ⟨0, false, .error .other⟩
      ⟨[⟨"u1", "s1", 0, [], false⟩], []⟩).2 rfl rfl⟩

/-- C5: a tracker is in the active snapshot at time `T` iff its expiry
is strictly after `T`; consequently a tracker whose expiry equals `T` is
excluded at `T`, and an incomplete upload all of whose session's
trackers have expired by `T` (with the grace period elapsed) is
finalized by the tick running at that very instant. -/
theorem tracker_active_iff_expiry_after (trackers : List SessionTracker)
    (t : SessionTracker) (now : Nat) :
    (t ∈ getActiveSessionTrackers trackers now ↔
      t ∈ trackers ∧ now < t.expiry)
    ∧ (t.expiry = now → t ∉ getActiveSessionTrackers trackers now)
    ∧ (∀ (cfg : UploadCompleterConfig) (st : CompleterState) (i : Nat)
        (mu : MemoryUpload), st.uploads[i]? = some mu →
        mu.completed = false →
        (∀ tr ∈ trackers, tr.sessionID = mu.sessionID →
          tr.expiry ≤ now) →
        cfg.gracePeriod ≤ now - mu.initiated →
        (checkUploads cfg
            ⟨now, false, .ok (getActiveSessionTrackers trackers now)⟩
            st).1.uploads[i]? =
          some { mu with completed := true }) := by
  have hmem : ∀ tr : SessionTracker,
      tr ∈ getActiveSessionTrackers trackers now ↔
        tr ∈ trackers ∧ now < tr.expiry := by
    intro tr
    simp [getActiveSessionTrackers, List.mem_filter]
  refine ⟨hmem t, ?_, ?_⟩
  · intro hexp hin
    have := ((hmem t).mp hin).2
    omega
  · intro cfg st i mu hmu hinc hexpired hge
    have hna : mu.sessionID ∉
        activeSessionIDs (getActiveSessionTrackers trackers now) := by
      intro hin
      rcases (mem_activeSessionIDs _ _).mp hin with ⟨tr, htr, hsid⟩
      rcases (hmem tr).mp htr with ⟨htr2, hlt⟩
      have := hexpired tr htr2 hsid
      omega
    rw [checkUploads_uploads_getElem cfg
      ⟨now, false, .ok (getActiveSessionTrackers trackers now)⟩ st
      (getActiveSessionTrackers trackers now) i rfl rfl, hmu]
    simp [tickUpload_of_finalize _ _ _ _ hinc hna (Or.inr hge)]

/-- Witness for C5: a tracker expiring exactly at time 5 is excluded
from the active snapshot at time 5, and the session's incomplete upload
is finalized by the tick running at time 5. -/
theorem tracker_active_iff_expiry_after_witness :
    (⟨"s1", 5⟩ : SessionTracker) ∉
        getActiveSessionTrackers [⟨"s1", 5⟩] 5
    ∧ (checkUploads ⟨true, true, true, 0⟩
        ⟨5, false, .ok (getActiveSessionTrackers [⟨"s1", 5⟩] 5)⟩
        ⟨[⟨"u1", "s1", 0, [], false⟩], []⟩).1.uploads[0]? =
      some ⟨"u1", "s1", 0, [], true⟩ :=
  ⟨(tracker_active_iff_expiry_after [⟨"s1", 5⟩] ⟨"s1", 5⟩ 5).2.1 rfl,
    (tracker_active_iff_expiry_after [⟨"s1", 5⟩] ⟨"s1", 5⟩ 5).2.2
      ⟨true, true, true, 0⟩ ⟨[⟨"u1", "s1", 0, [], false⟩], []⟩ 0
      ⟨"u1", "s1", 0, [], false⟩ rfl rfl (by decide) (by decide)⟩

/-- C7: the session-end composer is idempotent: on a sequence whose
first start-class event already has a matching end-class event it
produces nothing, and on a sequence with no start-class event at all it
also produces nothing. -/
theorem composeEndEvent_idempotent :
    (∀ (evs : List AuditEvent) (now : Nat) (sk ek : EventKind),
      findStartKind evs = some sk → matchingEndKind sk = some ek →
      (∃ e ∈ evs, e.kind = ek) → composeEndEvent evs now = none)
    ∧ (∀ (evs : List AuditEvent) (now : Nat),
      findStartKind evs = none → composeEndEvent evs now = none) := by
  constructor
  · intro evs now sk ek h1 h2 h3
    have hany : evs.any (fun e => e.kind == ek) = true := by
      rcases h3 with ⟨e, hmem, hk⟩
      exact List.any_eq_true.mpr ⟨e, hmem, by simp [hk]⟩
    simp [composeEndEvent, h1, h2, hany]
  · intro evs now h
    simp [composeEndEvent, h]

/-- Witness for C7: a log that already holds a session start and its
matching session end yields no new event; so does an empty log. -/
theorem composeEndEvent_idempotent_witness :
    composeEndEvent [⟨.sessionStart, 0⟩, ⟨.sessionEnd, 1⟩] 7 = none
    ∧ composeEndEvent [] 7 = none :=
  ⟨composeEndEvent_idempotent.1 [⟨.sessionStart, 0⟩, ⟨.sessionEnd, 1⟩]
      7 .sessionStart .sessionEnd (by decide) rfl
      ⟨⟨.sessionEnd, 1⟩, by decide, rfl⟩,
    composeEndEvent_idempotent.2 [] 7 rfl⟩

/-- C8: constructing an upload completer succeeds exactly when the
upload store, audit log and tracker source handles are all supplied;
a missing handle is a construction-time error. -/
theorem NewUploadCompleter_requires_handles
    (cfg : UploadCompleterConfig) :
    (NewUploadCompleter cfg).isOk =
      (cfg.hasUploader && cfg.hasAuditLog && cfg.hasSessionTracker) := by
  cases h1 : cfg.hasUploader <;> cases h2 : cfg.hasAuditLog <;>
    cases h3 : cfg.hasSessionTracker <;>
    simp [NewUploadCompleter, h1, h2, h3, Except.isOk, Except.toBool]

/-- C10: for a MongoDB database, calling `ReissueDBCerts` with an empty
user name returns a bad-parameter error with no step attempted — no
certificate is reissued and the profile is untouched, whatever the
collaborators would have answered. -/
theorem ReissueDBCerts_mongodb_empty_user (dbName : String)
    (db : DatabaseSpec) (env : ReissueEnv)
    (hproto : db.protocol = ProtocolMongoDB) :
    ReissueDBCerts "" dbName db env = ([], some .badParameter) := by
  simp [ReissueDBCerts, hproto]

/-- Witness for C10: a concrete MongoDB database with an empty user. -/
theorem ReissueDBCerts_mongodb_empty_user_witness :
    ReissueDBCerts "" "orders" ⟨"db1", "mongodb"⟩ ⟨false, false, false⟩
      = ([], some .badParameter) :=
  ReissueDBCerts_mongodb_empty_user "orders" ⟨"db1", "mongodb"⟩
    ⟨false, false, false⟩ rfl

/-- C3 counterexample: a session whose log already holds a session start
AND its matching session end still "has a start event"; its upload with
one uploaded part is completed and scheduled for emission by the tick,
yet the emission appends exactly one new event (the upload summary) and
no end event — not the two new events the claim asserts for every
session with a start event and at least one part. -/
theorem emitsSessionEnd_counterexample :
    (checkUploads ⟨true, true, true, 0⟩ ⟨0, false, .ok []⟩
        ⟨[⟨"u1", "s1", 0, [1], false⟩], []⟩).1 =
      ⟨[⟨"u1", "s1", 0, [1], true⟩], ["s1"]⟩
    ∧ findStartKind [⟨.sessionStart, 0⟩, ⟨.sessionEnd, 1⟩] =
      some .sessionStart
    ∧ newEmittedEvents [⟨.sessionStart, 0⟩, ⟨.sessionEnd, 1⟩] 5 =
      [⟨.sessionUpload, 5⟩] := by
  refine ⟨?_, by decide, by decide⟩
  decide

/-- C3 (amended): for a session whose log holds a start-class event and
does not yet hold the matching end-class event, the emission triggered
after its upload (with at least one part) is completed appends exactly
two new events in order — the upload summary first, then the end event
of the kind matching the start event; a desktop start yields the desktop
end variant and a generic session start the generic end.  The last
conjunct records that the tick schedules the emission for any such
finalized upload with at least one part. -/
theorem emitsSessionEnd_summary_then_end (evs : List AuditEvent)
    (now : Nat) (sk ek : EventKind)
    (hstart : findStartKind evs = some sk)
    (hmatch : matchingEndKind sk = some ek)
    (hnoend : ∀ e ∈ evs, e.kind ≠ ek) :
    newEmittedEvents evs now = [⟨.sessionUpload, now⟩, ⟨ek, now⟩]
    ∧ (sk = .windowsDesktopSessionStart →
        ek = .windowsDesktopSessionEnd)
    ∧ (sk = .sessionStart → ek = .sessionEnd)
    ∧ (∀ (grace tnow : Nat) (a : List String) (mu : MemoryUpload),
        mu.completed = false → mu.sessionID ∉ a →
        grace ≤ tnow - mu.initiated → mu.partNumbers ≠ [] →
        (tickUpload grace tnow a mu).2 = some mu.sessionID) := by
  have hany : evs.any (fun e => e.kind == ek) = false := by
    rw [List.any_eq_false]
    intro e he
    simp [hnoend e he]
  refine ⟨?_, ?_, ?_, ?_⟩
  · simp [newEmittedEvents, composeEndEvent, hstart, hmatch, hany]
  · intro hsk
    subst hsk
    simpa [matchingEndKind] using hmatch.symm
  · intro hsk
    subst hsk
    simpa [matchingEndKind] using hmatch.symm
  · intro grace tnow a mu hinc hna hge hp
    rw [tickUpload_of_finalize grace tnow a mu hinc hna (Or.inr hge)]
    simp [hp]

/-- Witness for C3 (amended): a desktop session start with no end event
yet — the emission appends the summary followed by the desktop end
variant. -/
theorem emitsSessionEnd_summary_then_end_witness :
    newEmittedEvents [⟨.windowsDesktopSessionStart, 0⟩] 5 =
      [⟨.sessionUpload, 5⟩, ⟨.windowsDesktopSessionEnd, 5⟩] :=
  (emitsSessionEnd_summary_then_end [⟨.windowsDesktopSessionStart, 0⟩]
      5 .windowsDesktopSessionStart .windowsDesktopSessionEnd
      (by decide) rfl (by decide)).1

/-- C9: when every upload of session `s` has zero uploaded parts, the
tick schedules no emission for `s` (even though eligible uploads are
still completed, per the last conjunct), so no session-end event is ever
appended for `s`; and conversely every session the tick does schedule
comes from an upload with at least one part. -/
theorem no_emission_for_partless_uploads (cfg : UploadCompleterConfig)
    (inp : TickInput) (st : CompleterState)
    (trackers : List SessionTracker) (s : String)
    (h1 : inp.listUploadsFails = false)
    (h2 : resolveTrackers inp.trackerResp = some trackers)
    (hpend : st.pending = [])
    (hparts : ∀ mu ∈ st.uploads, mu.sessionID = s →
      mu.partNumbers = []) :
    s ∉ (checkUploads cfg inp st).1.pending
    ∧ (∀ s2 ∈ (checkUploads cfg inp st).1.pending,
        ∃ mu ∈ st.uploads, mu.sessionID = s2 ∧ mu.partNumbers ≠ [])
    ∧ (∀ mu ∈ st.uploads, mu.completed = false →
        mu.sessionID ∉ activeSessionIDs trackers →
        cfg.gracePeriod ≤ inp.now - mu.initiated →
        (tickUpload cfg.gracePeriod inp.now
          (activeSessionIDs trackers) mu).1.completed = true) := by
  have hpending : (checkUploads cfg inp st).1.pending =
      (processUploads cfg.gracePeriod inp.now
        (activeSessionIDs trackers) st.uploads).2 := by
    rw [checkUploads_ok cfg inp st trackers h1 h2]
    simp [hpend]
  refine ⟨?_, ?_, ?_⟩
  · rw [hpending]
    intro hin
    rcases (mem_processUploads_snd _ _ _ _ _).mp hin with ⟨mu, hmem, heq⟩
    rcases tickUpload_snd_some _ _ _ _ _ heq with ⟨hsid, hne⟩
    exact hne (hparts mu hmem hsid)
  · intro s2 hin
    rw [hpending] at hin
    rcases (mem_processUploads_snd _ _ _ _ _).mp hin with ⟨mu, hmem, heq⟩
    rcases tickUpload_snd_some _ _ _ _ _ heq with ⟨hsid, hne⟩
    exact ⟨mu, hmem, hsid, hne⟩
  · intro mu _ hinc hna hge
    rw [tickUpload_of_finalize _ _ _ _ hinc hna (Or.inr hge)]

/-- Witness for C9: a single zero-part upload is completed by the tick
but its session is not scheduled for emission. -/
theorem no_emission_for_partless_uploads_witness :
    "s1" ∉ (checkUploads ⟨true, true, true, 0⟩ ⟨0, false, .ok []⟩
      ⟨[⟨"u1", "s1", 0, [], false⟩], []⟩).1.pending :=
  (no_emission_for_partless_uploads ⟨true, true, true, 0⟩
      ⟨0, false, .ok []⟩ ⟨[⟨"u1", "s1", 0, [], false⟩], []⟩ [] "s1"
      rfl rfl rfl (by decide)).1

end Teleport
